import Mathlib

/-!
Shallow embedding of parts of the Carbon Design System component library
(React), covering the code the claims are about: the Slider value
calculation (clamp, calcLeftPercent, calcSteppedValuePercent, calcValue,
setStateForHandle, the input onChange handler, the componentDidUpdate
prop-to-state sync), the FilterableMultiSelect menu state machine
(handleOnMenuChange, handleOnStateChange, the topItems useEffect and the
sortItems pinning), the ModalFooter secondaryButtons prop validator, the
Sketch shared-color-style generation (formatColorName, syncColorStyles),
and the ErrorBoundary fallback behaviour.

Modelling conventions: JavaScript numbers are rationals (`ℚ`);
`undefined`/`null` are `Option`; a JS value that may hold a number, a
string, or `undefined` (the Slider state fields `value`, `valueLower`,
`valueUpper`) is the sum type `SliderVal`.  Builtins and external
functions (`Number.parseFloat`, the ToNumber coercion used by JS
relational operators, `syncColorStyle`, `formatTokenName`, and the
`sortItems`/`filterItems`/`onMenuChange` props) are parameters of the
embedding, matching how the source receives them.
-/

namespace Carbon

/-- JS truthiness of an optional number: `undefined`, `null` and `0` are falsy. -/
def truthyQ : Option ℚ → Bool
  | none => false
  | some q => q != 0

/-- The `HandlePosition` enum of the two-handle Slider. -/
inductive HandlePosition where
  | lower
  | upper
  deriving DecidableEq, Repr

/-- A Slider state field in JS holds a number, a raw input string
(stored by the NaN branch of `onChange`), or `undefined`. -/
inductive SliderVal where
  | num (q : ℚ)
  | str (s : String)
  | undefined
  deriving DecidableEq, Repr

/-- JS truthiness of a `SliderVal`: `0`, the empty string and `undefined`
are falsy. -/
def SliderVal.jsTruthy : SliderVal → Bool
  | .num q => q != 0
  | .str s => s != ""
  | .undefined => false

/-- JS ToNumber coercion of a `SliderVal`; the coercion of strings is the
parameter `toNum` (`none` models NaN, as does `undefined`). -/
def SliderVal.toNumber (toNum : String → Option ℚ) : SliderVal → Option ℚ
  | .num q => some q
  | .str s => toNum s
  | .undefined => none

/-- The JS `>` relational operator on Slider state values: two strings are
compared lexicographically, otherwise both sides are coerced with ToNumber
and any NaN makes the comparison false. -/
def jsGt (toNum : String → Option ℚ) : SliderVal → SliderVal → Bool
  | .str a, .str b => decide (b < a)
  | a, b =>
    match a.toNumber toNum, b.toNumber toNum with
    | some x, some y => decide (y < x)
    | _, _ => false

/-- The JS `<` relational operator on Slider state values. -/
def jsLt (toNum : String → Option ℚ) : SliderVal → SliderVal → Bool
  | .str a, .str b => decide (a < b)
  | a, b =>
    match a.toNumber toNum, b.toNumber toNum with
    | some x, some y => decide (x < y)
    | _, _ => false

/-- Conversion of a `calcValue` result component back into a state field. -/
def optToVal : Option ℚ → SliderVal
  | some q => .num q
  | none => .undefined

/-- The horizontal extent of the bounding client rect of the Slider track
element; `none` models an unavailable rect. -/
structure BoundingRect where
  left : ℚ
  right : ℚ
  deriving DecidableEq, Repr

/-- Slider props after React `defaultProps` resolution (`step = 1`,
`stepMultiplier = 4`, `twoHandles = false`, ...), so the numeric props are
always present; `value`, `valueLower`, `valueUpper` stay optional. -/
structure SliderProps where
  min : ℚ
  max : ℚ
  step : ℚ
  stepMultiplier : ℚ
  twoHandles : Bool
  disabled : Bool
  readOnly : Bool
  value : Option ℚ
  valueLower : Option ℚ
  valueUpper : Option ℚ
  deriving DecidableEq, Repr

/-- The Slider component state fields the claims are about. -/
structure SliderState where
  value : SliderVal
  valueLower : SliderVal
  valueUpper : SliderVal
  left : ℚ
  leftLower : ℚ
  leftUpper : ℚ
  needsOnRelease : Bool
  isValid : Bool
  activeHandle : Option HandlePosition
  deriving DecidableEq, Repr

/-- JS Math.max on two (non-NaN) numbers. -/
def jsMax (a b : ℚ) : ℚ := if a ≤ b then b else a

/-- JS Math.min on two (non-NaN) numbers. -/
def jsMin (a b : ℚ) : ℚ := if a ≤ b then a else b

namespace Slider

/-- Slider.clamp: `Math.max(min, Math.min(val, max))`. -/
def clamp (val lo hi : ℚ) : ℚ := jsMax lo (jsMin val hi)

/-- Slider.calcLeftPercent.  `rect` is the track bounding rect
(`element?.getBoundingClientRect?.()`), whose width is forced to at least 1;
`if (clientX)` and `value && range` are JS truthiness tests. -/
def calcLeftPercent (props : SliderProps) (rect : Option BoundingRect)
    (clientX value : Option ℚ) (range : ℚ) : ℚ :=
  let width0 : ℚ := match rect with
    | some r => r.right - r.left
    | none => 0
  let width : ℚ := if width0 ≤ 0 then 1 else width0
  if truthyQ clientX then
    let leftOffset := clientX.getD 0 - (match rect with
      | some r => r.left
      | none => 0)
    leftOffset / width
  else if truthyQ value && (range != 0) then
    if range = 0 then 0 else (value.getD 0 - props.min) / range
  else
    0

/-- Slider.calcSteppedValuePercent.  `round` is the Mathlib rounding
`round x = ⌊x + 1/2⌋`, which agrees with JS `Math.round` on finite values.
Returns the pair `[steppedValue, steppedPercent]`. -/
def calcSteppedValuePercent (props : SliderProps) (leftPercent range : ℚ) :
    ℚ × ℚ :=
  let totalSteps := range / props.step
  let steppedValue : ℚ := (round (leftPercent * totalSteps) : ℤ) * props.step
  let steppedPercent := clamp (steppedValue / range) 0 1
  let steppedValue2 := clamp (steppedValue + props.min) props.min props.max
  (steppedValue2, steppedPercent)

/-- Slider.calcValue: returns the pair `(value, left)`.  The `useRawValue`
branch passes `value` through untouched and only clamps the thumb position
`left` to `[0, 100]`; the stepped branch returns the clamped stepped value. -/
def calcValue (props : SliderProps) (rect : Option BoundingRect)
    (clientX value : Option ℚ) (useRawValue : Bool) : Option ℚ × ℚ :=
  let range := props.max - props.min
  let leftPercent := calcLeftPercent props rect clientX value range
  if useRawValue then
    (value, (jsMin 1 (jsMax 0 leftPercent)) * 100)
  else
    let sv := calcSteppedValuePercent props leftPercent range
    (some sv.1, sv.2 * 100)

/-- Slider.setStateForHandle: `valueUpper && value > valueUpper ? valueUpper
: value` (and the mirrored guard for the upper handle), where the leading
`valueUpper &&` / `valueLower &&` is a JS truthiness test on the counterpart
state value. -/
def setStateForHandle (toNum : String → Option ℚ) (st : SliderState)
    (handle : HandlePosition) (value : SliderVal) (left : ℚ) : SliderState :=
  if handle = HandlePosition.lower then
    let cap := st.valueUpper.jsTruthy && jsGt toNum value st.valueUpper
    { st with
      valueLower := if cap then st.valueUpper else value
      leftLower := if cap then st.leftUpper else left
      isValid := true }
  else
    let cap := st.valueLower.jsTruthy && jsLt toNum value st.valueLower
    { st with
      valueUpper := if cap then st.valueLower else value
      leftUpper := if cap then st.leftLower else left
      isValid := true }

/-- Slider.onChange (the text input handler).  `parseFloat` models
`Number.parseFloat` (`none` = NaN); `handlePosition` models
`evt.target.dataset.handlePosition`; `targetValue` is the raw input string.
The NaN branch stores the raw string into the matching state field without
calling calcValue; the numeric branch calls calcValue with
`useRawValue = true`. -/
def onChange (parseFloat toNum : String → Option ℚ) (props : SliderProps)
    (rect : Option BoundingRect) (st : SliderState) (targetValue : String)
    (handlePosition : Option HandlePosition) : SliderState :=
  if props.disabled || props.readOnly then st
  else
    let targetNum := parseFloat targetValue
    let activeHandle := handlePosition.getD HandlePosition.lower
    match targetNum with
    | none =>
      if props.twoHandles ∧ activeHandle = HandlePosition.lower then
        { st with valueLower := .str targetValue }
      else if props.twoHandles ∧ activeHandle = HandlePosition.upper then
        { st with valueUpper := .str targetValue }
      else
        { st with value := .str targetValue }
    | some tv =>
      let vl := calcValue props rect none (some tv) true
      if props.twoHandles then
        setStateForHandle toNum st activeHandle (optToVal vl.1) vl.2
      else
        { st with value := optToVal vl.1, left := vl.2 }

/-- Slider.componentDidUpdate, final section: if none of `value`,
`valueLower`, `valueUpper`, `max`, `min` changed, do nothing; otherwise
re-sync state through `calcValue({ value: props.value, useRawValue: true })`. -/
def didUpdateValueSync (prevProps props : SliderProps)
    (rect : Option BoundingRect) (st : SliderState) : SliderState :=
  if prevProps.value = props.value ∧ prevProps.valueLower = props.valueLower ∧
      prevProps.valueUpper = props.valueUpper ∧ prevProps.max = props.max ∧
      prevProps.min = props.min then
    st
  else
    let vl := calcValue props rect none props.value true
    { st with value := optToVal vl.1, left := vl.2 }

end Slider

/-! ### FilterableMultiSelect

The combobox state machine: the `useState` fields, `handleOnChange`,
`handleOnMenuChange`, `handleOnOuterClick`, `handleOnStateChange`,
`handleOnInputValueChange` (for `changeInput` events), the
`prevOpen !== open` prop sync, the `topItems` `useEffect`, and the pinned
`selectedItems` object-literal lookup used both by the `clickItem` case and
by the open-menu render.  The `sortItems` and `filterItems` function props
are parameters (the source defaults live outside the snapshot); `sortItems`
receives the filtered items and the `selectedItems` field of its options
object (the remaining option fields `itemToString`, `compareItems`,
`locale` are passed through verbatim and do not select the pinned list).
`provided` models whether the optional `onMenuChange` callback prop was
given. -/

/-- The `selectionFeedback` prop enum. -/
inductive SelectionFeedback where
  | top
  | fixed
  | topAfterReopen
  deriving DecidableEq, Repr

/-- The FilterableMultiSelect `useState` fields the claims are about. -/
structure FMSState (α : Type) where
  isOpen : Bool
  prevOpen : Bool
  inputValue : String
  topItems : List α
  highlightedIndex : ℤ
  currentSelectedItems : List α
  deriving DecidableEq, Repr

/-- Downshift state-change descriptors reaching `handleOnStateChange`. -/
inductive FMSStateChange (α : Type) where
  | keyDownArrowDown (highlightedIndex : Option ℤ)
  | keyDownArrowUp (highlightedIndex : Option ℤ)
  | inputKeyDownHome (highlightedIndex : Option ℤ)
  | inputKeyDownEnd (highlightedIndex : Option ℤ)
  | keyDownEscape
  | changeInput
  | keyDownEnter
  | clickItem (selectedItems : List α) (selectedItem : α)
  | other
  deriving DecidableEq, Repr

/-- JS `Array.prototype.indexOf`: the index of the first occurrence, `-1`
when absent. -/
def jsIndexOf {α : Type} [BEq α] (l : List α) (a : α) : ℤ :=
  match l.findIdx? (· == a) with
  | some i => (i : ℤ)
  | none => -1

/-- The object-literal lookup on selectionFeedback selecting the list
pinned to the top of the menu: top ↦ selectedItems, fixed ↦ the empty
list, top-after-reopen ↦ topItems. -/
def pinnedSelectedItems {α : Type} (feedback : SelectionFeedback)
    (selectedItems topItems : List α) : List α :=
  match feedback with
  | .top => selectedItems
  | .fixed => []
  | .topAfterReopen => topItems

/-- handleOnChange: stores `changes.selectedItems` (the `onChange` callback
to the consumer carries no state change). -/
def handleOnChange {α : Type} (st : FMSState α) (selectedItems : List α) :
    FMSState α :=
  { st with currentSelectedItems := selectedItems }

/-- handleOnMenuChange: `nextIsOpen = forceIsOpen ?? !isOpen`; calls
`onMenuChange(nextIsOpen)` when the callback is provided (the second
component records the calls); `if (!isOpen)` reads the pre-update closure
value of `isOpen`. -/
def handleOnMenuChange {α : Type} (provided : Bool) (st : FMSState α)
    (forceIsOpen : Option Bool) : FMSState α × List Bool :=
  let nextIsOpen := forceIsOpen.getD (!st.isOpen)
  let calls := if provided then [nextIsOpen] else []
  let st1 := { st with isOpen := nextIsOpen }
  let st2 := if !st.isOpen then { st1 with highlightedIndex := 0 } else st1
  (st2, calls)

/-- handleOnStateChange: the Downshift `onStateChange` switch. -/
def handleOnStateChange {α : Type} [BEq α]
    (sortItems : List α → List α → List α)
    (filterItems : List α → String → List α)
    (feedback : SelectionFeedback) (items : List α) (provided : Bool)
    (st : FMSState α) (changes : FMSStateChange α) : FMSState α :=
  match changes with
  | .keyDownArrowDown hi =>
    let st1 := { st with highlightedIndex := hi.getD 0 }
    if !st.isOpen then (handleOnMenuChange provided st1 (some true)).1 else st1
  | .keyDownArrowUp hi => { st with highlightedIndex := hi.getD 0 }
  | .inputKeyDownHome hi => { st with highlightedIndex := hi.getD 0 }
  | .inputKeyDownEnd hi => { st with highlightedIndex := hi.getD 0 }
  | .keyDownEscape =>
    let st1 := (handleOnMenuChange provided st (some false)).1
    { st1 with highlightedIndex := 0 }
  | .changeInput => { st with highlightedIndex := 0 }
  | .keyDownEnter =>
    if !st.isOpen then { st with highlightedIndex := 0 } else st
  | .clickItem selectedItems selectedItem =>
    if st.isOpen then
      let sorted := sortItems (filterItems items st.inputValue)
        (pinnedSelectedItems feedback selectedItems st.topItems)
      { st with highlightedIndex := jsIndexOf sorted selectedItem }
    else st
  | .other => st

/-- handleOnInputValueChange for `changeInput` events (other event types
return before touching state; `inputValue` is a string, so the
`Array.isArray(inputValue)` branch is never taken). -/
def handleOnInputValueChange {α : Type} (provided : Bool) (st : FMSState α)
    (v : String) : FMSState α :=
  let st1 := { st with inputValue := v }
  if v != "" && !st.isOpen then (handleOnMenuChange provided st1 (some true)).1
  else if v == "" && st.isOpen then
    (handleOnMenuChange provided st1 (some false)).1
  else st1

/-- The render-phase `if (prevOpen !== open)` sync of the `open` prop. -/
def syncOpenProp {α : Type} (st : FMSState α) (openProp : Bool) : FMSState α :=
  if st.prevOpen != openProp then
    { st with isOpen := openProp, prevOpen := openProp }
  else st

/-- The `useEffect` on `[currentSelectedItems, isOpen, setTopItems]`:
`if (!isOpen) setTopItems(currentSelectedItems)`. -/
def fmsEffectTopItems {α : Type} (st : FMSState α) : FMSState α :=
  if !st.isOpen then { st with topItems := st.currentSelectedItems } else st

/-- The component events that reach the handlers above. -/
inductive FMSEvent (α : Type) where
  | selectionChanged (selectedItems : List α)
  | menuChange (forceIsOpen : Option Bool)
  | outerClick
  | stateChange (changes : FMSStateChange α)
  | inputValueChange (value : String)
  | openPropChange (openProp : Bool)
  deriving DecidableEq, Repr

/-- Dispatch one event to its handler (`handleOnOuterClick` is
`handleOnMenuChange(false)`). -/
def fmsHandleEvent {α : Type} [BEq α]
    (sortItems : List α → List α → List α)
    (filterItems : List α → String → List α)
    (feedback : SelectionFeedback) (items : List α) (provided : Bool)
    (st : FMSState α) (ev : FMSEvent α) : FMSState α :=
  match ev with
  | .selectionChanged sel => handleOnChange st sel
  | .menuChange f => (handleOnMenuChange provided st f).1
  | .outerClick => (handleOnMenuChange provided st (some false)).1
  | .stateChange c =>
    handleOnStateChange sortItems filterItems feedback items provided st c
  | .inputValueChange v => handleOnInputValueChange provided st v
  | .openPropChange b => syncOpenProp st b

/-- One component step: an event handler followed by the `topItems`
`useEffect` (React runs the effect after the render the state change
triggers). -/
def fmsStep {α : Type} [BEq α]
    (sortItems : List α → List α → List α)
    (filterItems : List α → String → List α)
    (feedback : SelectionFeedback) (items : List α) (provided : Bool)
    (st : FMSState α) (ev : FMSEvent α) : FMSState α :=
  fmsEffectTopItems
    (fmsHandleEvent sortItems filterItems feedback items provided st ev)

/-! ### ModalFooter secondaryButtons prop validator -/

/-- A JS prop value as seen by the validator: absent (`undefined`), an
array, or a non-array value with its JS truthiness. -/
inductive JSProp (β : Type) where
  | undefined
  | arr (elems : List β)
  | nonArr (truthy : Bool)
  deriving DecidableEq, Repr

/-- JS truthiness of a prop value (arrays are always truthy). -/
def JSProp.jsTruthy {β : Type} : JSProp β → Bool
  | .undefined => false
  | .arr _ => true
  | .nonArr t => t

/-- Whether the prop is an array of length exactly 2. -/
def JSProp.isArrayOfTwo {β : Type} : JSProp β → Bool
  | .arr es => es.length == 2
  | _ => false

/-- ModalFooter.propTypes.secondaryButtons: returns the Error
(`some message`) when the prop is truthy and is not an array of length 2;
otherwise falls through (the per-element `checkPropTypes` calls only log
warnings) and returns `null` (`none`). -/
def secondaryButtonsValidator {β : Type} (p : JSProp β) : Option String :=
  if p.jsTruthy then
    match p with
    | .arr es =>
      if es.length ≠ 2 then
        some "secondaryButtons needs to be an array of two button config objects"
      else none
    | _ =>
      some "secondaryButtons needs to be an array of two button config objects"
  else none

/-! ### Sketch shared color styles -/

/-- The `formatFor` discriminator of formatColorName. -/
inductive FormatFor where
  | sharedLayerStyle
  | colorVariable
  | other
  deriving DecidableEq, Repr

/-- formatColorName: the kebab-cased name is split on dashes and joined
with spaces; for shared layer styles the parts color / formattedName /
grade are joined with " / " after a JS filter(Boolean), which drops
`undefined` and empty strings. -/
def formatColorName (name : String) (grade : Option String)
    (formatFor : FormatFor) : String :=
  let formattedName := " ".intercalate (name.splitOn "-")
  match formatFor with
  | .sharedLayerStyle =>
    " / ".intercalate
      (([some "color", some formattedName, grade].filterMap id).filter
        (fun s => s ≠ ""))
  | .colorVariable =>
    let head := if grade.getD "" ≠ "" then
        formattedName ++ "/" ++ formattedName
      else formattedName
    " ".intercalate
      (([some head, grade].filterMap id).filter (fun s => s ≠ ""))
  | .other => ""

/-- The swatch names removed by
`const { black, white, orange, yellow, ...swatches } = colors`. -/
def omittedSwatchNames : List String := ["black", "white", "orange", "yellow"]

/-- The `...swatches` rest object of the destructuring: the color tokens
without the four single-color swatches.  `colors` is the `@carbon/colors`
object as an association list swatch name ↦ (grade ↦ color string). -/
def swatchesOf (colors : List (String × List (String × String))) :
    List (String × List (String × String)) :=
  colors.filter (fun sw => !(omittedSwatchNames.contains sw.1))

/-- The number of (swatch, grade) pairs of the rest-object swatches. -/
def swatchGradeCount (colors : List (String × List (String × String))) : ℕ :=
  ((swatchesOf colors).map (fun sw => sw.2.length)).sum

/-- syncColorStyles.  `syncColorStyle` (external, one shared style per
call, `document` already applied) and `formatTokenName` (external) are the
parameters `f` and `ftn`.  The flat-map over the rest-object swatches is
concatenated with the four single colors black grade 100, white grade 0,
orange grade 40, yellow grade 30; a color read off a missing grade is JS
`undefined`, hence `f` takes an `Option String` color, and reading a grade
off a missing swatch object is a TypeError, modelled as `none`. -/
def syncColorStyles {σ : Type} (f : String → Option String → σ)
    (ftn : String → String)
    (colors : List (String × List (String × String))) : Option (List σ) :=
  let swatches := swatchesOf colors
  let sharedStyles := swatches.flatMap (fun sw =>
    sw.2.map (fun gc =>
      f (formatColorName (ftn sw.1) (some gc.1) .sharedLayerStyle)
        (some gc.2)))
  match colors.lookup "black", colors.lookup "white",
      colors.lookup "orange", colors.lookup "yellow" with
  | some bl, some wh, some og, some ye =>
    let singleColors :=
      [("black", bl.lookup "100"), ("white", wh.lookup "0"),
        ("orange", og.lookup "40"), ("yellow", ye.lookup "30")].map
        (fun nc => f (formatColorName nc.1 none .sharedLayerStyle) nc.2)
    some (sharedStyles ++ singleColors)
  | _, _, _, _ => none

/-! ### ErrorBoundary -/

/-- Modelled from the spec: the ErrorBoundary component implementation is
not part of the source snapshot (only its export declaration and its
end-to-end test are present).  Per spec section 7, a React error boundary
catches an exception thrown while rendering a descendant and renders its
fallback UI in place of the failed subtree, with no retry or recovery
beyond that.  `childRender` is the outcome of rendering the children:
`Except.error e` when a descendant throws `e`. -/
def renderWithBoundary {ε Node : Type} (fallback : Node)
    (childRender : Except ε Node) : Node :=
  match childRender with
  | .ok rendered => rendered
  | .error _ => fallback

/-! ### Concrete instances used by counterexamples and witnesses -/

/-- Model of `Number.parseFloat` restricted to the inputs the closed
theorems use: parses the literal string "200". -/
def parseFloat200 : String → Option ℚ :=
  fun s => if s = "200" then some 200 else none

/-- Model of string-to-number coercion on inputs that are not numeric
strings (everything coerces to NaN); no closed theorem below compares a
string, so the choice is irrelevant. -/
def toNumberNone : String → Option ℚ := fun _ => none

/-- A single-handle Slider with range `[0, 100]` and step 1. -/
def sliderProps0 : SliderProps :=
  { min := 0, max := 100, step := 1, stepMultiplier := 4, twoHandles := false
    disabled := false, readOnly := false, value := some 50
    valueLower := none, valueUpper := none }

/-- sliderProps0 with the `value` prop changed to 200 (outside `[min, max]`). -/
def sliderProps200 : SliderProps :=
  { sliderProps0 with value := some 200 }

/-- A Slider state holding value 50. -/
def sliderState0 : SliderState :=
  { value := .num 50, valueLower := .undefined, valueUpper := .undefined
    left := 50, leftLower := 0, leftUpper := 0, needsOnRelease := false
    isValid := true, activeHandle := none }

/-- A two-handle Slider state with both handles at the boundary value 0
(a consistent state: valueLower = valueUpper = 0). -/
def sliderStateUpperZero : SliderState :=
  { value := .undefined, valueLower := .num 0, valueUpper := .num 0
    left := 0, leftLower := 0, leftUpper := 0, needsOnRelease := false
    isValid := true, activeHandle := some .lower }

/-- A sortItems prop instance that pins nothing. -/
def fmsSortId : List ℕ → List ℕ → List ℕ := fun l _ => l

/-- A filterItems prop instance that filters nothing. -/
def fmsFilterId : List ℕ → String → List ℕ := fun l _ => l

/-- A FilterableMultiSelect state with the menu open and one item selected
during the current open session beyond the pinned topItems. -/
def fmsStateOpen : FMSState ℕ :=
  { isOpen := true, prevOpen := true, inputValue := "a", topItems := [1]
    highlightedIndex := 0, currentSelectedItems := [1, 2] }

/-- A syncColorStyle instance recording the (name, color) pair of each call. -/
def cf0 : String → Option String → String × Option String := fun n c => (n, c)

/-- A small color-token object: one ordinary swatch (blue, two grades) plus
the four single-color swatches. -/
def colors0 : List (String × List (String × String)) :=
  [("blue", [("60", "#0f62fe"), ("70", "#0043ce")]),
    ("black", [("100", "#000000")]),
    ("white", [("0", "#ffffff")]),
    ("orange", [("40", "#ff832b")]),
    ("yellow", [("30", "#f1c21b")])]

end Carbon

/-! ## Theorems -/

namespace Carbon

/-- jsMax is an upper bound of its first argument. -/
theorem le_jsMax_left (a b : ℚ) : a ≤ jsMax a b := by
  unfold jsMax; split
  · assumption
  · exact le_refl a

/-- jsMax is below any common upper bound. -/
theorem jsMax_le (a b c : ℚ) (h1 : a ≤ c) (h2 : b ≤ c) : jsMax a b ≤ c := by
  unfold jsMax; split <;> assumption

/-- jsMin is below its first argument. -/
theorem jsMin_le_left (a b : ℚ) : jsMin a b ≤ a := by
  unfold jsMin; split
  · exact le_refl a
  · exact le_of_not_le (by assumption)

/-- jsMin is below its second argument. -/
theorem jsMin_le_right (a b : ℚ) : jsMin a b ≤ b := by
  unfold jsMin; split
  · assumption
  · exact le_refl b

/-- jsMin is above any common lower bound. -/
theorem le_jsMin (a b c : ℚ) (h1 : c ≤ a) (h2 : c ≤ b) : c ≤ jsMin a b := by
  unfold jsMin; split <;> assumption

/-- clamp keeps its result inside [lo, hi] whenever lo ≤ hi. -/
theorem clamp_mem (x lo hi : ℚ) (h : lo ≤ hi) :
    lo ≤ Slider.clamp x lo hi ∧ Slider.clamp x lo hi ≤ hi :=
  ⟨le_jsMax_left _ _, jsMax_le _ _ _ h (jsMin_le_right _ _)⟩

/-- The first component of calcSteppedValuePercent is the clamped stepped
value, hence lies in [min, max] when min ≤ max. -/
theorem calcSteppedValuePercent_fst_mem (props : SliderProps)
    (leftPercent range : ℚ) (h : props.min ≤ props.max) :
    props.min ≤ (Slider.calcSteppedValuePercent props leftPercent range).1 ∧
    (Slider.calcSteppedValuePercent props leftPercent range).1 ≤ props.max :=
  clamp_mem _ _ _ h

/-- C1 (amended): for every Slider with min ≤ max, the stepped path of
calcValue — the one used for every drag (clientX) and keyboard event —
produces a value clamped to [min, max] via
clamp(steppedValue + min, min, max).  (Input events instead reach calcValue
with useRawValue = true and are not clamped; see the counterexample.) -/
theorem calcValue_stepped_clamped (props : SliderProps)
    (rect : Option BoundingRect) (clientX value : Option ℚ) (v : ℚ)
    (hminmax : props.min ≤ props.max)
    (hv : (Slider.calcValue props rect clientX value false).1 = some v) :
    props.min ≤ v ∧ v ≤ props.max := by
  have h1 : (Slider.calcValue props rect clientX value false).1 =
      some (Slider.calcSteppedValuePercent props
        (Slider.calcLeftPercent props rect clientX value
          (props.max - props.min)) (props.max - props.min)).1 := rfl
  rw [h1] at hv
  injection hv with hv
  rw [← hv]
  exact calcSteppedValuePercent_fst_mem props _ _ hminmax

/-- Witness for C1 at a concrete drag: props [0, 100], clientX 37 with no
bounding rect yields the clamped value 100 ∈ [0, 100]. -/
theorem calcValue_stepped_clamped_witness :
    sliderProps0.min ≤ sliderProps0.max ∧
    (Slider.calcValue sliderProps0 none (some 37) none false).1 = some 100 ∧
    (sliderProps0.min ≤ 100 ∧ (100 : ℚ) ≤ sliderProps0.max) :=
  ⟨by decide,
    by
      norm_num [Slider.calcValue, Slider.calcSteppedValuePercent,
        Slider.calcLeftPercent, Slider.clamp, truthyQ, jsMax, jsMin,
        sliderProps0],
    calcValue_stepped_clamped sliderProps0 none (some 37) none 100
      (by decide)
      (by
        norm_num [Slider.calcValue, Slider.calcSteppedValuePercent,
          Slider.calcLeftPercent, Slider.clamp, truthyQ, jsMax, jsMin,
          sliderProps0])⟩

/-- C1 (counterexample): an input event whose text parses to 200 on a
Slider with [min, max] = [0, 100] stores the value 200 in state: the input
path calls calcValue with useRawValue = true, which does not clamp, so an
input event can drive the stored value above max. -/
theorem onChange_input_event_exceeds_max :
    (Slider.onChange parseFloat200 toNumberNone sliderProps0 none
        sliderState0 "200" none).value = SliderVal.num 200 ∧
    ¬((Slider.onChange parseFloat200 toNumberNone sliderProps0 none
        sliderState0 "200" none).value = SliderVal.num sliderProps0.max) ∧
    ¬((200 : ℚ) ≤ sliderProps0.max) := by
  refine ⟨by decide, by decide, by decide⟩

/-- C8 (code bug, failing input): with both handles at the boundary value 0
— inside [min, max] = [0, 100] — the JS-truthiness guard
`valueUpper && value > valueUpper` is skipped because valueUpper = 0 is
falsy, so updating the lower handle to 50 stores valueLower = 50 while
valueUpper stays 0, violating the documented invariant
valueLower ≤ valueUpper. -/
theorem setStateForHandle_zero_counterpart_bug :
    (Slider.setStateForHandle toNumberNone sliderStateUpperZero
        HandlePosition.lower (SliderVal.num 50) 50).valueLower =
      SliderVal.num 50 ∧
    (Slider.setStateForHandle toNumberNone sliderStateUpperZero
        HandlePosition.lower (SliderVal.num 50) 50).valueUpper =
      SliderVal.num 0 ∧
    (0 : ℚ) ≤ 50 ∧ (50 : ℚ) ≤ 100 ∧ ¬((50 : ℚ) ≤ 0) := by
  refine ⟨by decide, by decide, by norm_num, by norm_num, by norm_num⟩

/-- C9: when Number.parseFloat of the input string is NaN, the Slider
onChange handler stores the raw input string into the matching state field
(value, valueLower or valueUpper, selected by twoHandles and the events
handle position) and changes nothing else — in particular the thumb
positions stay put, so calcValue is never consulted and the stored string
is neither clamped nor snapped to a step. -/
theorem onChange_nan_stores_raw_string (parseFloat toNum : String → Option ℚ)
    (props : SliderProps) (rect : Option BoundingRect) (st : SliderState)
    (targetValue : String) (hp : Option HandlePosition)
    (hd : props.disabled = false) (hr : props.readOnly = false)
    (hparse : parseFloat targetValue = none) :
    Slider.onChange parseFloat toNum props rect st targetValue hp =
      (if props.twoHandles ∧
          hp.getD HandlePosition.lower = HandlePosition.lower then
        { st with valueLower := SliderVal.str targetValue }
      else if props.twoHandles ∧
          hp.getD HandlePosition.lower = HandlePosition.upper then
        { st with valueUpper := SliderVal.str targetValue }
      else { st with value := SliderVal.str targetValue }) := by
  simp only [Slider.onChange, hd, hr, hparse, Bool.or_self, Bool.false_eq_true,
    if_false]

/-- Witness for C9: the non-numeric input "abc" on a single-handle Slider
is stored as the raw string. -/
theorem onChange_nan_stores_raw_string_witness :
    sliderProps0.disabled = false ∧ sliderProps0.readOnly = false ∧
    toNumberNone "abc" = none ∧
    Slider.onChange toNumberNone toNumberNone sliderProps0 none sliderState0
        "abc" none =
      (if sliderProps0.twoHandles ∧
          (none : Option HandlePosition).getD HandlePosition.lower =
            HandlePosition.lower then
        { sliderState0 with valueLower := SliderVal.str "abc" }
      else if sliderProps0.twoHandles ∧
          (none : Option HandlePosition).getD HandlePosition.lower =
            HandlePosition.upper then
        { sliderState0 with valueUpper := SliderVal.str "abc" }
      else { sliderState0 with value := SliderVal.str "abc" }) :=
  ⟨rfl, rfl, rfl,
    onChange_nan_stores_raw_string toNumberNone toNumberNone sliderProps0
      none sliderState0 "abc" none rfl rfl rfl⟩

/-- C10: when one of the value, valueLower, valueUpper, min or max props
changes, componentDidUpdate re-syncs state through calcValue with
useRawValue = true: the new state value is exactly the value prop (no
clamping to [min, max]), while the computed thumb position left lies in
[0, 100]. -/
theorem didUpdateValueSync_raw (prevProps props : SliderProps)
    (rect : Option BoundingRect) (st : SliderState)
    (hch : ¬(prevProps.value = props.value ∧
        prevProps.valueLower = props.valueLower ∧
        prevProps.valueUpper = props.valueUpper ∧
        prevProps.max = props.max ∧ prevProps.min = props.min)) :
    (Slider.didUpdateValueSync prevProps props rect st).value =
      optToVal props.value ∧
    0 ≤ (Slider.didUpdateValueSync prevProps props rect st).left ∧
    (Slider.didUpdateValueSync prevProps props rect st).left ≤ 100 := by
  have key : Slider.didUpdateValueSync prevProps props rect st =
      { st with
        value := optToVal props.value
        left := (jsMin 1 (jsMax 0 (Slider.calcLeftPercent props rect none
          props.value (props.max - props.min)))) * 100 } := by
    unfold Slider.didUpdateValueSync
    rw [if_neg hch]
    rfl
  rw [key]
  refine ⟨rfl, ?_, ?_⟩
  · have h0 : (0 : ℚ) ≤ jsMin 1 (jsMax 0 (Slider.calcLeftPercent props rect
        none props.value (props.max - props.min))) :=
      le_jsMin _ _ _ (by norm_num) (le_jsMax_left _ _)
    dsimp only
    nlinarith
  · have h1 : jsMin 1 (jsMax 0 (Slider.calcLeftPercent props rect none
        props.value (props.max - props.min))) ≤ 1 :=
      jsMin_le_left _ _
    dsimp only
    nlinarith

/-- Witness for C10: the value prop changing from 50 to 200 on a Slider
with [min, max] = [0, 100] re-syncs state to the raw value 200. -/
theorem didUpdateValueSync_raw_witness :
    ¬(sliderProps0.value = sliderProps200.value ∧
        sliderProps0.valueLower = sliderProps200.valueLower ∧
        sliderProps0.valueUpper = sliderProps200.valueUpper ∧
        sliderProps0.max = sliderProps200.max ∧
        sliderProps0.min = sliderProps200.min) ∧
    ((Slider.didUpdateValueSync sliderProps0 sliderProps200 none
        sliderState0).value = optToVal sliderProps200.value ∧
      0 ≤ (Slider.didUpdateValueSync sliderProps0 sliderProps200 none
        sliderState0).left ∧
      (Slider.didUpdateValueSync sliderProps0 sliderProps200 none
        sliderState0).left ≤ 100) :=
  ⟨by decide,
    didUpdateValueSync_raw sliderProps0 sliderProps200 none sliderState0
      (by decide)⟩

/-- handleOnMenuChange only ever writes the isOpen and highlightedIndex
fields; it never touches topItems or currentSelectedItems. -/
theorem handleOnMenuChange_topItems {α : Type} (provided : Bool)
    (st : FMSState α) (f : Option Bool) :
    (handleOnMenuChange provided st f).1.topItems = st.topItems ∧
    (handleOnMenuChange provided st f).1.currentSelectedItems =
      st.currentSelectedItems := by
  unfold handleOnMenuChange
  dsimp only
  split <;> exact ⟨rfl, rfl⟩

/-- The first component of handleOnMenuChange has
isOpen = forceIsOpen ?? !isOpen. -/
theorem handleOnMenuChange_isOpen {α : Type} (provided : Bool)
    (st : FMSState α) (f : Option Bool) :
    (handleOnMenuChange provided st f).1.isOpen = f.getD (!st.isOpen) := by
  unfold handleOnMenuChange
  dsimp only
  split <;> rfl

/-- No event handler writes topItems (only the useEffect does). -/
theorem fmsHandleEvent_topItems {α : Type} [BEq α]
    (so : List α → List α → List α) (fi : List α → String → List α)
    (fb : SelectionFeedback) (items : List α) (provided : Bool)
    (st : FMSState α) (ev : FMSEvent α) :
    (fmsHandleEvent so fi fb items provided st ev).topItems = st.topItems := by
  cases ev with
  | selectionChanged sel => rfl
  | menuChange f => exact (handleOnMenuChange_topItems provided st f).1
  | outerClick => exact (handleOnMenuChange_topItems provided st (some false)).1
  | stateChange c =>
    cases c with
    | keyDownArrowDown hi =>
      unfold fmsHandleEvent handleOnStateChange
      dsimp only
      split
      · exact (handleOnMenuChange_topItems provided _ (some true)).1
      · rfl
    | keyDownArrowUp hi => rfl
    | inputKeyDownHome hi => rfl
    | inputKeyDownEnd hi => rfl
    | keyDownEscape =>
      unfold fmsHandleEvent handleOnStateChange
      dsimp only
      exact (handleOnMenuChange_topItems provided st (some false)).1
    | changeInput => rfl
    | keyDownEnter =>
      unfold fmsHandleEvent handleOnStateChange
      dsimp only
      split <;> rfl
    | clickItem sel it =>
      unfold fmsHandleEvent handleOnStateChange
      dsimp only
      split <;> rfl
    | other => rfl
  | inputValueChange v =>
    unfold fmsHandleEvent handleOnInputValueChange
    dsimp only
    split
    · exact (handleOnMenuChange_topItems provided _ (some true)).1
    · split
      · exact (handleOnMenuChange_topItems provided _ (some false)).1
      · rfl
  | openPropChange b =>
    unfold fmsHandleEvent syncOpenProp
    dsimp only
    split <;> rfl

/-- The useEffect changes neither isOpen nor currentSelectedItems. -/
theorem fmsEffectTopItems_isOpen {α : Type} (st : FMSState α) :
    (fmsEffectTopItems st).isOpen = st.isOpen ∧
    (fmsEffectTopItems st).currentSelectedItems = st.currentSelectedItems := by
  unfold fmsEffectTopItems
  split <;> exact ⟨rfl, rfl⟩

/-- C2: for a FilterableMultiSelect with selectionFeedback top-after-reopen,
after any component step that leaves the menu closed, topItems equals the
current selection (the useEffect re-syncs it); any step that keeps the menu
open leaves topItems untouched, so while the menu is open topItems is still
the selection as of the last close; and the list pinned to the top — the
selectedItems argument handed to sortItems both in the clickItem case and
in the open-menu render — is exactly topItems. -/
theorem topItems_sync_spec {α : Type} [BEq α]
    (so : List α → List α → List α) (fi : List α → String → List α)
    (fb : SelectionFeedback) (items : List α) (provided : Bool)
    (stO stC : FMSState α) (evO evC : FMSEvent α) (sel top : List α)
    (_hO : stO.isOpen = true)
    (hO2 : (fmsStep so fi fb items provided stO evO).isOpen = true)
    (hC : (fmsStep so fi fb items provided stC evC).isOpen = false) :
    (fmsStep so fi fb items provided stO evO).topItems = stO.topItems ∧
    (fmsStep so fi fb items provided stC evC).topItems =
      (fmsStep so fi fb items provided stC evC).currentSelectedItems ∧
    pinnedSelectedItems SelectionFeedback.topAfterReopen sel top = top := by
  refine ⟨?_, ?_, rfl⟩
  · -- while the menu stays open, topItems is frozen
    have hmid : (fmsHandleEvent so fi fb items provided stO evO).isOpen =
        true := by
      rw [← (fmsEffectTopItems_isOpen
        (fmsHandleEvent so fi fb items provided stO evO)).1]
      exact hO2
    unfold fmsStep fmsEffectTopItems
    rw [hmid]
    simp only [Bool.not_true, Bool.false_eq_true, if_false]
    exact fmsHandleEvent_topItems so fi fb items provided stO evO
  · -- whenever the menu ends up closed, the effect re-syncs topItems
    have hmid : (fmsHandleEvent so fi fb items provided stC evC).isOpen =
        false := by
      rw [← (fmsEffectTopItems_isOpen
        (fmsHandleEvent so fi fb items provided stC evC)).1]
      exact hC
    unfold fmsStep fmsEffectTopItems
    rw [hmid]
    simp only [Bool.not_false, if_true]

/-- Witness for C2: from an open state with topItems [1] and selection
[1, 2], selecting [3] keeps topItems at [1]; closing the menu re-syncs
topItems to the selection. -/
theorem topItems_sync_spec_witness :
    fmsStateOpen.isOpen = true ∧
    (fmsStep fmsSortId fmsFilterId SelectionFeedback.topAfterReopen [] false
      fmsStateOpen (FMSEvent.selectionChanged [3])).isOpen = true ∧
    (fmsStep fmsSortId fmsFilterId SelectionFeedback.topAfterReopen [] false
      fmsStateOpen (FMSEvent.menuChange (some false))).isOpen = false ∧
    ((fmsStep fmsSortId fmsFilterId SelectionFeedback.topAfterReopen [] false
        fmsStateOpen (FMSEvent.selectionChanged [3])).topItems =
      fmsStateOpen.topItems ∧
    (fmsStep fmsSortId fmsFilterId SelectionFeedback.topAfterReopen [] false
        fmsStateOpen (FMSEvent.menuChange (some false))).topItems =
      (fmsStep fmsSortId fmsFilterId SelectionFeedback.topAfterReopen [] false
        fmsStateOpen (FMSEvent.menuChange (some false))).currentSelectedItems ∧
    pinnedSelectedItems SelectionFeedback.topAfterReopen [9] [1] = [1]) :=
  ⟨rfl, rfl, rfl,
    topItems_sync_spec fmsSortId fmsFilterId SelectionFeedback.topAfterReopen
      [] false fmsStateOpen fmsStateOpen (FMSEvent.selectionChanged [3])
      (FMSEvent.menuChange (some false)) [9] [1] rfl rfl rfl⟩

/-- C3: handleOnMenuChange sets the open state to forceIsOpen when it is
neither null nor undefined and to the negation of the previous isOpen
otherwise, and the onMenuChange callback, when provided, is called exactly
once with exactly that new open state (and never when not provided). -/
theorem handleOnMenuChange_spec {α : Type} (provided : Bool)
    (st : FMSState α) (forceIsOpen : Option Bool) :
    (handleOnMenuChange provided st forceIsOpen).1.isOpen =
      forceIsOpen.getD (!st.isOpen) ∧
    (handleOnMenuChange provided st forceIsOpen).2 =
      (if provided then [forceIsOpen.getD (!st.isOpen)] else []) :=
  ⟨handleOnMenuChange_isOpen provided st forceIsOpen, rfl⟩

/-- C4: a keyDownEscape state change closes the menu and resets the
highlighted index to 0. -/
theorem handleOnStateChange_escape {α : Type} [BEq α]
    (so : List α → List α → List α) (fi : List α → String → List α)
    (fb : SelectionFeedback) (items : List α) (provided : Bool)
    (st : FMSState α) :
    (handleOnStateChange so fi fb items provided st
      FMSStateChange.keyDownEscape).isOpen = false ∧
    (handleOnStateChange so fi fb items provided st
      FMSStateChange.keyDownEscape).highlightedIndex = 0 := by
  unfold handleOnStateChange handleOnMenuChange
  dsimp only
  split <;> exact ⟨rfl, rfl⟩

/-- C5: the secondaryButtons validator returns an Error exactly when the
prop is truthy (provided) and is not an array of length exactly 2; in
every other case — prop absent or otherwise falsy, or an array of exactly
two elements (whose element shapes only ever produce console warnings,
never an Error) — it returns null. -/
theorem secondaryButtonsValidator_spec {β : Type} (p : JSProp β) :
    (secondaryButtonsValidator p).isSome = (p.jsTruthy && !p.isArrayOfTwo) := by
  cases p with
  | undefined => rfl
  | nonArr t => cases t <;> rfl
  | arr es =>
    by_cases h : es.length = 2 <;>
      simp [secondaryButtonsValidator, JSProp.jsTruthy, JSProp.isArrayOfTwo, h]

/-- The flat-map over the swatches produces one style per (swatch, grade)
pair. -/
theorem length_swatch_styles {σ : Type}
    (g : String × List (String × String) → String × String → σ) :
    ∀ l : List (String × List (String × String)),
      (l.flatMap (fun sw => sw.2.map (g sw))).length =
        (l.map (fun sw => sw.2.length)).sum := by
  intro l
  induction l with
  | nil => rfl
  | cons a t ih => simp [ih]

/-- C6: syncColorStyles returns one shared style per (swatch, grade) pair
of the rest-object swatches — the color tokens with black, white, orange
and yellow removed by the destructuring — followed by exactly four
trailing single-color styles for black grade 100, white grade 0, orange
grade 40 and yellow grade 30, so its length is the number of
(swatch, grade) pairs plus four. -/
theorem syncColorStyles_spec {σ : Type} (f : String → Option String → σ)
    (ftn : String → String)
    (colors : List (String × List (String × String))) (res : List σ)
    (bl wh og ye : List (String × String))
    (hb : colors.lookup "black" = some bl)
    (hw : colors.lookup "white" = some wh)
    (ho : colors.lookup "orange" = some og)
    (hy : colors.lookup "yellow" = some ye)
    (h : syncColorStyles f ftn colors = some res) :
    res.length = swatchGradeCount colors + 4 ∧
    res.drop (swatchGradeCount colors) =
      [f (formatColorName "black" none FormatFor.sharedLayerStyle)
          (bl.lookup "100"),
        f (formatColorName "white" none FormatFor.sharedLayerStyle)
          (wh.lookup "0"),
        f (formatColorName "orange" none FormatFor.sharedLayerStyle)
          (og.lookup "40"),
        f (formatColorName "yellow" none FormatFor.sharedLayerStyle)
          (ye.lookup "30")] := by
  simp only [syncColorStyles, hb, hw, ho, hy, Option.some.injEq] at h
  subst h
  constructor
  · rw [List.length_append, length_swatch_styles]
    rfl
  · rw [show swatchGradeCount colors =
      ((swatchesOf colors).flatMap (fun sw => sw.2.map (fun gc =>
        f (formatColorName (ftn sw.1) (some gc.1)
          FormatFor.sharedLayerStyle) (some gc.2)))).length from
      (length_swatch_styles _ _).symm]
    rw [List.drop_left]
    rfl

/-- Witness for C6 on a small concrete colors object: one ordinary swatch
with two grades plus the four singles gives 2 + 4 = 6 styles. -/
theorem syncColorStyles_spec_witness :
    colors0.lookup "black" = some [("100", "#000000")] ∧
    colors0.lookup "white" = some [("0", "#ffffff")] ∧
    colors0.lookup "orange" = some [("40", "#ff832b")] ∧
    colors0.lookup "yellow" = some [("30", "#f1c21b")] ∧
    syncColorStyles cf0 id colors0 =
      some ((syncColorStyles cf0 id colors0).getD []) ∧
    (((syncColorStyles cf0 id colors0).getD []).length =
        swatchGradeCount colors0 + 4 ∧
      ((syncColorStyles cf0 id colors0).getD []).drop
          (swatchGradeCount colors0) =
        [cf0 (formatColorName "black" none FormatFor.sharedLayerStyle)
            (([("100", "#000000")] : List (String × String)).lookup "100"),
          cf0 (formatColorName "white" none FormatFor.sharedLayerStyle)
            (([("0", "#ffffff")] : List (String × String)).lookup "0"),
          cf0 (formatColorName "orange" none FormatFor.sharedLayerStyle)
            (([("40", "#ff832b")] : List (String × String)).lookup "40"),
          cf0 (formatColorName "yellow" none FormatFor.sharedLayerStyle)
            (([("30", "#f1c21b")] : List (String × String)).lookup "30")]) :=
  ⟨rfl, rfl, rfl, rfl, rfl,
    syncColorStyles_spec cf0 id colors0 _ _ _ _ _ rfl rfl rfl rfl rfl⟩

/-- C7: when rendering a descendant throws, the error boundary renders the
fallback UI in place of the failed subtree, and when nothing throws it
renders the subtree itself — there is no retry or recovery beyond the
fallback. -/
theorem errorBoundary_fallback {ε Node : Type} (fallback n : Node) (e : ε) :
    renderWithBoundary fallback (Except.error e) = fallback ∧
    renderWithBoundary fallback (Except.ok n : Except ε Node) = n :=
  ⟨rfl, rfl⟩

end Carbon
